import Mathlib

/-!
Shallow embedding of the SolarEdge-to-VPS telemetry pipeline.

Edge side (files `edge/src/uploader.py`, `edge/src/poller.py`,
`edge/src/normalizer.py`, `edge/src/registers.py`, `edge/src/spool.py`):
Modbus poller with exponential backoff, pure normalizer with range
validation and firmware fallbacks, durable SQLite spool, HTTPS batch
uploader.

Server side (files `vps/src/api/series.py`, `vps/src/api/ingest.py`,
`vps/src/services/ingestion.py`): series endpoint validation, ingest
endpoint validation pipeline, idempotent batch insertion.

Rationals stand in for Python floats (every constant appearing in the
code is exactly representable), integers for timestamps, and `Option`
for fallible results.
-/

namespace SolarVps

/-! ## Uploader (`edge/src/uploader.py`) -/

namespace Uploader

/-- `_INITIAL_BACKOFF_S = 1.0`. -/
def initialBackoff : ℚ := 1

/-- `_DEFAULT_MAX_BACKOFF_S = 300.0`. -/
def defaultMaxBackoff : ℚ := 300

/-- Mutable state of an `Uploader` relevant to backoff behaviour:
`_current_backoff` and the construction-time `_max_backoff_s`. -/
structure State where
  currentBackoff : ℚ
  maxBackoff : ℚ
deriving DecidableEq

/-- `Uploader._increase_backoff`: double the backoff, capped at max. -/
def increaseBackoff (s : State) : State :=
  { s with currentBackoff := min (s.currentBackoff * 2) s.maxBackoff }

/-- `Uploader._reset_backoff`: reset to the initial 1 s value. -/
def resetBackoff (s : State) : State :=
  { s with currentBackoff := initialBackoff }

/-- Outcome of the HTTP POST inside `upload_batch`: a response with some
status code, or one of the two caught exception classes
(`httpx.TimeoutException`, `httpx.ConnectError`). -/
inductive PostOutcome where
  | status (code : Nat)
  | timeout
  | connectError
deriving DecidableEq

/-- Result of one `upload_batch` call: the returned Bool, the list of
rowids passed to `spool.ack` (`none` when `ack` was not called), and the
uploader state afterwards. -/
structure UploadResult where
  success : Bool
  acked : Option (List Nat)
  state : State
deriving DecidableEq

/-- `Uploader.upload_batch`: `rows` is what `spool.peek(batch_size)`
returned (pairs of rowid and payload), `outcome` is how the POST to
`{base_url}/v1/ingest` went.  Empty spool: return False untouched.
Network error: no ack, backoff doubled, False.  Status 200: ack exactly
the peeked rowids, backoff reset, True.  Any other status: no ack,
backoff doubled, False. -/
def uploadBatch (s : State) (rows : List (Nat × String))
    (outcome : PostOutcome) : UploadResult :=
  if rows.isEmpty then ⟨false, none, s⟩
  else
    match outcome with
    | .timeout => ⟨false, none, increaseBackoff s⟩
    | .connectError => ⟨false, none, increaseBackoff s⟩
    | .status code =>
      if code = 200 then ⟨true, some (rows.map Prod.fst), resetBackoff s⟩
      else ⟨false, none, increaseBackoff s⟩

/-- A fresh uploader (constructor with default `max_backoff_s`). -/
def initState : State := ⟨initialBackoff, defaultMaxBackoff⟩

/-- One failed upload attempt (HTTP 500 on a non-empty spool), as it
affects the uploader state. -/
def failedUpload (s : State) : State :=
  (uploadBatch s [(1, "x")] (.status 500)).state

/-- Uploader state after `n` consecutive failed upload attempts starting
from a fresh uploader. -/
def stateAfterFailures : Nat → State
  | 0 => initState
  | n + 1 => failedUpload (stateAfterFailures n)

end Uploader

/-! ## Poller backoff (`edge/src/poller.py`, class `Poller`) -/

namespace Poller

/-- `BASE_BACKOFF_S = 1.0`. -/
def BASE_BACKOFF_S : ℚ := 1

/-- `MAX_BACKOFF_S = 60.0`. -/
def MAX_BACKOFF_S : ℚ := 60

/-- The sleep executed at the top of `Poller.poll` as a function of
`_consecutive_failures`: `min(BASE_BACKOFF_S * 2**(n-1), MAX_BACKOFF_S)`
when `n > 0`, and no sleep (0) otherwise. -/
def sleepBefore (n : Nat) : ℚ :=
  if 0 < n then min (BASE_BACKOFF_S * 2 ^ (n - 1)) MAX_BACKOFF_S else 0

/-- Update of `_consecutive_failures` at the end of `Poller.poll`:
reset to 0 when the poll produced a result, incremented otherwise. -/
def updateFailures (n : Nat) (success : Bool) : Nat :=
  if success then 0 else n + 1

end Poller

section BackoffClaims

open Uploader

theorem uploadBatch_status_500 (s : State) :
    uploadBatch s [(1, "x")] (.status 500) = ⟨false, none, increaseBackoff s⟩ := by
  simp [uploadBatch]

theorem failedUpload_eq (s : State) : failedUpload s = increaseBackoff s := by
  rw [failedUpload, uploadBatch_status_500]

theorem stateAfterFailures_spec (n : Nat) :
    (stateAfterFailures n).currentBackoff = min ((2 : ℚ) ^ n) 300 ∧
      (stateAfterFailures n).maxBackoff = 300 := by
  induction n with
  | zero =>
    refine ⟨?_, rfl⟩
    rw [pow_zero, min_eq_left (by norm_num)]
    rfl
  | succ n ih =>
    rw [stateAfterFailures, failedUpload_eq]
    refine ⟨?_, ih.2⟩
    show min ((stateAfterFailures n).currentBackoff * 2) (stateAfterFailures n).maxBackoff = _
    rw [ih.1, ih.2, pow_succ]
    rcases le_total ((2 : ℚ) ^ n) 300 with h | h
    · rw [min_eq_left h]
    · rw [min_eq_right h, min_eq_right (by linarith), min_eq_right (by nlinarith)]

/-- C1 (amended): on a non-empty spool, `upload_batch` acks exactly the
peeked rowids, resets the backoff and returns true when the POST returns
status exactly 200; on any other status — 2xx included — and on timeout
or connect error it does not ack, doubles the backoff capped at
`max_backoff_s`, and returns false. -/
theorem upload_batch_ack_success_failure (s : State)
    (rows : List (Nat × String)) (h : rows ≠ []) :
    uploadBatch s rows (.status 200) =
      ⟨true, some (rows.map Prod.fst), resetBackoff s⟩ ∧
    (∀ c, c ≠ 200 → uploadBatch s rows (.status c) =
      ⟨false, none, increaseBackoff s⟩) ∧
    uploadBatch s rows .timeout = ⟨false, none, increaseBackoff s⟩ ∧
    uploadBatch s rows .connectError = ⟨false, none, increaseBackoff s⟩ ∧
    (increaseBackoff s).currentBackoff = min (s.currentBackoff * 2) s.maxBackoff ∧
    (resetBackoff s).currentBackoff = 1 := by
  have h' : rows.isEmpty = false := by
    simp [List.isEmpty_iff, h]
  refine ⟨by simp [uploadBatch, h'], fun c hc => by simp [uploadBatch, h', hc],
    by simp [uploadBatch, h'], by simp [uploadBatch, h'], rfl, rfl⟩

/-- C1 witness: concrete one-row spool, success and failure outcomes. -/
theorem upload_batch_ack_success_failure_witness :
    uploadBatch initState [(1, "p")] (.status 200) =
      ⟨true, some [1], resetBackoff initState⟩ ∧
    uploadBatch initState [(1, "p")] (.status 500) =
      ⟨false, none, increaseBackoff initState⟩ :=
  ⟨(upload_batch_ack_success_failure initState [(1, "p")] (by decide)).1,
   (upload_batch_ack_success_failure initState [(1, "p")] (by decide)).2.1
     500 (by decide)⟩

/-- C1 counterexample: a 201 response is a 2xx status, yet `upload_batch`
does not ack and returns false, because the code tests
`response.status_code == 200` exactly. -/
theorem upload_batch_2xx_counterexample :
    200 ≤ 201 ∧ 201 < 300 ∧
    (uploadBatch initState [(1, "p")] (.status 201)).success = false ∧
    (uploadBatch initState [(1, "p")] (.status 201)).acked = none := by
  refine ⟨by norm_num, by norm_num, ?_, ?_⟩ <;> simp [uploadBatch]

/-- C3 (amended): the poller sleeps `min(1·2^(n-1), 60)` before an attempt
when `n > 0` consecutive failures are recorded and 0 after a success,
while the uploader's stored backoff after `n` consecutive upload failures
equals `min(1·2^n, 300)` — one doubling per failure starting from 1 s —
so it reaches 8 s after three failures and resets to 1 s on a success. -/
theorem backoff_poller_and_uploader (n : Nat) (hn : 0 < n) :
    Poller.sleepBefore n =
      min (Poller.BASE_BACKOFF_S * 2 ^ (n - 1)) Poller.MAX_BACKOFF_S ∧
    Poller.sleepBefore 0 = 0 ∧
    Poller.sleepBefore (Poller.updateFailures n true) = 0 ∧
    (stateAfterFailures n).currentBackoff =
      min (initialBackoff * 2 ^ n) defaultMaxBackoff ∧
    (stateAfterFailures 3).currentBackoff = 8 ∧
    (uploadBatch (stateAfterFailures n) [(1, "p")]
      (.status 200)).state.currentBackoff = 1 := by
  refine ⟨by simp [Poller.sleepBefore, hn], rfl,
    by simp [Poller.updateFailures, Poller.sleepBefore], ?_, ?_, ?_⟩
  · rw [(stateAfterFailures_spec n).1]
    show _ = min ((1 : ℚ) * 2 ^ n) 300
    rw [one_mul]
  · rw [(stateAfterFailures_spec 3).1]
    norm_num
  · simp [uploadBatch, resetBackoff]
    rfl

/-- C3 witness: instantiation at three consecutive failures. -/
theorem backoff_poller_and_uploader_witness :
    (stateAfterFailures 3).currentBackoff = 8 :=
  (backoff_poller_and_uploader 3 (by decide)).2.2.2.2.1

/-- C3 counterexample: the claim's uniform formula `min(base·2^(n-1), max)`
is wrong for the uploader — after 3 consecutive upload failures its
backoff is 8 s (one doubling per failure from 1 s), not
`min(1·2^(3-1), 300) = 4`. -/
theorem backoff_formula_counterexample :
    (stateAfterFailures 3).currentBackoff = 8 ∧
    min (initialBackoff * 2 ^ (3 - 1)) defaultMaxBackoff = 4 ∧
    (8 : ℚ) ≠ 4 := by
  refine ⟨(stateAfterFailures_spec 3).1.trans (by norm_num), ?_, by norm_num⟩
  show min ((1 : ℚ) * 2 ^ 2) 300 = 4
  norm_num

end BackoffClaims

/-! ## Series endpoint (`vps/src/api/series.py`, `get_series`) -/

namespace Series

/-- `VALID_FRAMES = frozenset(FRAME_CONFIG.keys())`, the keys of
`FRAME_CONFIG` in `vps/src/services/aggregation.py`. -/
def VALID_FRAMES : List String := ["day", "month", "year", "all"]

/-- The validation part of `get_series` after authentication: first the
frame check (422), then the device-match check (403); 200 stands for
falling through to the aggregation query. Arguments are the `frame`
query parameter, the `device_id` query parameter, and the authenticated
device id. -/
def getSeriesStatus (frame device_id auth_device_id : String) : Nat :=
  if frame ∉ VALID_FRAMES then 422
  else if device_id ≠ auth_device_id then 403
  else 200

end Series

section SeriesClaims

open Series

/-- C2 (amended): in `get_series` the frame check precedes the
device-match check: a frame outside `{day, month, year, all}` yields 422
regardless of any device mismatch, and 403 is returned exactly for
requests with a valid frame whose query device differs from the
authenticated device. -/
theorem series_frame_check_precedes_device_check
    (frame dev auth : String) :
    (frame ∉ VALID_FRAMES → getSeriesStatus frame dev auth = 422) ∧
    (frame ∈ VALID_FRAMES → dev ≠ auth → getSeriesStatus frame dev auth = 403) ∧
    (frame ∈ VALID_FRAMES → dev = auth → getSeriesStatus frame dev auth = 200) := by
  refine ⟨fun h => by simp [getSeriesStatus, h],
    fun h hne => by simp [getSeriesStatus, h, hne],
    fun h he => by simp [getSeriesStatus, h, he]⟩

/-- C2 witness: an invalid frame with a mismatched device gives 422, a
valid frame with a mismatched device gives 403. -/
theorem series_frame_check_precedes_device_check_witness :
    getSeriesStatus "bogus" "dev-2" "dev-1" = 422 ∧
    getSeriesStatus "day" "dev-2" "dev-1" = 403 :=
  ⟨(series_frame_check_precedes_device_check "bogus" "dev-2" "dev-1").1
      (by decide),
   (series_frame_check_precedes_device_check "day" "dev-2" "dev-1").2.1
      (by decide) (by decide)⟩

/-- C2 counterexample: with a mismatched device and an invalid frame the
code answers 422, not the 403 the claim requires ("403 regardless of the
frame value"). -/
theorem series_device_first_counterexample :
    getSeriesStatus "bogus" "dev-2" "dev-1" = 422 ∧ (422 : Nat) ≠ 403 := by
  constructor
  · rfl
  · decide

end SeriesClaims

/-! ## Register catalog (`edge/src/registers.py`) -/

namespace Edge

/-- `RegisterDef` dataclass.  `word_count` is stored explicitly with the
value `__post_init__` derives from `reg_type` (U16/S16 give 1, U32/S32
give 2, UTF8 sets it by hand). -/
structure RegisterDef where
  address : Nat
  name : String
  reg_type : String
  unit : String
  scale : ℚ
  valid_range : Option (ℚ × ℚ)
  word_count : Nat
deriving DecidableEq

/-- `RegisterGroup` dataclass. -/
structure RegisterGroup where
  group_name : String
  start_address : Nat
  count : Nat
  registers : List RegisterDef
deriving DecidableEq

def serial_number : RegisterDef :=
  ⟨4990, "serial_number", "UTF8", "", 1, none, 10⟩

def device_type_code : RegisterDef :=
  ⟨5000, "device_type_code", "U16", "", 1, some (0, 65535), 1⟩

def total_dc_power : RegisterDef :=
  ⟨5004, "total_dc_power", "U32", "W", 1, some (0, 20000), 2⟩

def daily_pv_generation : RegisterDef :=
  ⟨5011, "daily_pv_generation", "U16", "kWh", 1/10, some (0, 100), 1⟩

def mppt1_voltage : RegisterDef :=
  ⟨5012, "mppt1_voltage", "U16", "V", 1/10, some (0, 600), 1⟩

def mppt1_current : RegisterDef :=
  ⟨5013, "mppt1_current", "U16", "A", 1/10, some (0, 20), 1⟩

def mppt2_voltage : RegisterDef :=
  ⟨5014, "mppt2_voltage", "U16", "V", 1/10, some (0, 600), 1⟩

def mppt2_current : RegisterDef :=
  ⟨5015, "mppt2_current", "U16", "A", 1/10, some (0, 20), 1⟩

def total_pv_generation : RegisterDef :=
  ⟨5017, "total_pv_generation", "U32", "kWh", 1/10, some (0, 1000000), 2⟩

def export_power : RegisterDef :=
  ⟨5083, "export_power", "S32", "W", 1, some (-20000, 20000), 2⟩

def load_power : RegisterDef :=
  ⟨13008, "load_power", "S32", "W", 1, some (-20000, 50000), 2⟩

def grid_power : RegisterDef :=
  ⟨13010, "grid_power", "S16", "W", 1, some (-20000, 20000), 1⟩

def daily_direct_consumption : RegisterDef :=
  ⟨13017, "daily_direct_consumption", "U16", "kWh", 1/10, some (0, 200), 1⟩

def battery_power : RegisterDef :=
  ⟨13022, "battery_power", "S16", "W", 1, some (-10000, 10000), 1⟩

def battery_soc : RegisterDef :=
  ⟨13023, "battery_soc", "U16", "%", 1/10, some (0, 100), 1⟩

def battery_temperature : RegisterDef :=
  ⟨13024, "battery_temperature", "U16", "C", 1/10, some (-20, 60), 1⟩

def daily_battery_discharge : RegisterDef :=
  ⟨13026, "daily_battery_discharge", "U16", "kWh", 1/10, some (0, 100), 1⟩

def daily_battery_charge : RegisterDef :=
  ⟨13027, "daily_battery_charge", "U16", "kWh", 1/10, some (0, 100), 1⟩

def DEVICE_GROUP : RegisterGroup :=
  ⟨"device", 4990, 11, [serial_number, device_type_code]⟩

def PV_GROUP : RegisterGroup :=
  ⟨"pv", 5004, 15,
    [total_dc_power, daily_pv_generation, mppt1_voltage, mppt1_current,
     mppt2_voltage, mppt2_current, total_pv_generation]⟩

def EXPORT_GROUP : RegisterGroup :=
  ⟨"export", 5083, 2, [export_power]⟩

def LOAD_GROUP : RegisterGroup :=
  ⟨"load", 13008, 10, [load_power, grid_power, daily_direct_consumption]⟩

def BATTERY_GROUP : RegisterGroup :=
  ⟨"battery", 13022, 6,
    [battery_power, battery_soc, battery_temperature,
     daily_battery_discharge, daily_battery_charge]⟩

/-- `ALL_GROUPS` in recommended read order. -/
def ALL_GROUPS : List RegisterGroup :=
  [DEVICE_GROUP, PV_GROUP, EXPORT_GROUP, LOAD_GROUP, BATTERY_GROUP]

/-- `ALL_REGISTERS`, the flat by-name lookup built from the groups. -/
def ALL_REGISTERS : List RegisterDef :=
  (ALL_GROUPS.map RegisterGroup.registers).flatten

/-- `ALL_REGISTERS.get(name)` — dict lookup by register name (names are
unique, so first match is the dict entry). -/
def lookupRegister (n : String) : Option RegisterDef :=
  ALL_REGISTERS.find? (fun r => r.name == n)

/-! ## Normalizer (`edge/src/normalizer.py`) -/

/-- The poller's raw output `dict[str, list[int]]`: register name to list
of 16-bit words. -/
def RawMap : Type := List (String × List Nat)

instance : Membership (String × List Nat) RawMap :=
  inferInstanceAs (Membership _ (List _))

/-- Dict lookup on a raw map. -/
def RawMap.lookup (raw : RawMap) (n : String) : Option (List Nat) :=
  List.lookup n raw

/-- `_convert_u16`: `raw & 0xFFFF`. -/
def convert_u16 (raw : Nat) : Int := (raw % 65536 : Nat)

/-- `_convert_s16`: two's-complement signed 16-bit. -/
def convert_s16 (raw : Nat) : Int :=
  let v : Nat := raw % 65536
  if v ≥ 0x8000 then (v : Int) - 0x10000 else (v : Int)

/-- `_convert_u32`: `((hi & 0xFFFF) << 16) | (lo & 0xFFFF)`. -/
def convert_u32 (hi lo : Nat) : Int :=
  ((hi % 65536) * 65536 + lo % 65536 : Nat)

/-- `_convert_s32`: two's-complement signed 32-bit over two words. -/
def convert_s32 (hi lo : Nat) : Int :=
  let v : Nat := (hi % 65536) * 65536 + lo % 65536
  if v ≥ 0x80000000 then (v : Int) - 0x100000000 else (v : Int)

/-- The range-validation tail of `_extract_value`, applied to the scaled
value: pass values inside `valid_range` through; outside it, apply the
S32 low-word-S16 firmware fallback when the high word is 0 or 0xFFFF and
the fallback is in range, else fail. -/
def rangeValidate (reg : RegisterDef) (words : List Nat) (scaled : ℚ) :
    Option ℚ :=
  match reg.valid_range with
  | none => some scaled
  | some (lo, hi) =>
    if lo ≤ scaled ∧ scaled ≤ hi then some scaled
    else if reg.reg_type = "S32" ∧ 2 ≤ words.length ∧
        (words.getD 0 0 = 0 ∨ words.getD 0 0 = 0xFFFF) then
      let altScaled : ℚ := (convert_s16 (words.getD 1 0) : ℚ) * reg.scale
      if lo ≤ altScaled ∧ altScaled ≤ hi then some altScaled else none
    else none

/-- `_extract_value`: fetch the register's word list from the raw map,
assemble the integer by type, scale it, and range-validate. -/
def extractValue (reg : RegisterDef) (raw : RawMap) : Option ℚ :=
  match raw.lookup reg.name with
  | none => none
  | some words =>
    if reg.reg_type = "U32" ∨ reg.reg_type = "S32" then
      match words with
      | hi :: lo :: _ =>
        let rawInt : Int :=
          if reg.reg_type = "U32" then convert_u32 hi lo else convert_s32 hi lo
        rangeValidate reg words ((rawInt : ℚ) * reg.scale)
      | _ => none
    else if reg.reg_type = "U16" ∨ reg.reg_type = "S16" then
      match words with
      | w :: _ =>
        let rawInt : Int :=
          if reg.reg_type = "U16" then convert_u16 w else convert_s16 w
        rangeValidate reg words ((rawInt : ℚ) * reg.scale)
      | _ => none
    else none

/-- `SungrowSample` (edge `models.py`): every field is a required float —
there is no optional field on the edge sample model. -/
structure SungrowSample where
  device_id : String
  ts : Int
  pv_power_w : ℚ
  pv_daily_kwh : ℚ
  battery_power_w : ℚ
  battery_soc_pct : ℚ
  battery_temp_c : ℚ
  load_power_w : ℚ
  export_power_w : ℚ
deriving DecidableEq

/-- One `_FIELD_MAP` step of `normalize`: resolve the register name in
`ALL_REGISTERS` and extract its value (a missing catalog entry fails the
sample). -/
def fieldValue (reg_name : String) (raw : RawMap) : Option ℚ :=
  match lookupRegister reg_name with
  | none => none
  | some reg => extractValue reg raw

/-- The `export_power_w` step of `normalize`: when the export register is
absent from the raw map, fall back to the negated grid power when grid
power extracts; otherwise (and when the export register is present) take
the normal extraction path. -/
def exportFieldValue (raw : RawMap) : Option ℚ :=
  if (raw.lookup "export_power").isNone then
    match lookupRegister "grid_power" with
    | some gridReg =>
      match extractValue gridReg raw with
      | some g => some (-g)
      | none => fieldValue "export_power" raw
    | none => fieldValue "export_power" raw
  else fieldValue "export_power" raw

/-- `normalize(raw, device_id=…, ts=…)`: every `_FIELD_MAP` entry in dict
order must produce a value, else the whole sample is `None`. -/
def normalize (raw : RawMap) (device_id : String) (ts : Int) :
    Option SungrowSample := do
  let pv ← fieldValue "total_dc_power" raw
  let pvDaily ← fieldValue "daily_pv_generation" raw
  let batPower ← fieldValue "battery_power" raw
  let batSoc ← fieldValue "battery_soc" raw
  let batTemp ← fieldValue "battery_temperature" raw
  let load ← fieldValue "load_power" raw
  let exp ← exportFieldValue raw
  some ⟨device_id, ts, pv, pvDaily, batPower, batSoc, batTemp, load, exp⟩

end Edge

section NormalizerClaims

open Edge

theorem lookupRegister_total_dc_power :
    lookupRegister "total_dc_power" = some total_dc_power := by
  simp [lookupRegister, ALL_REGISTERS, ALL_GROUPS, DEVICE_GROUP, PV_GROUP,
    EXPORT_GROUP, LOAD_GROUP, BATTERY_GROUP, serial_number, device_type_code,
    total_dc_power, List.find?]

theorem lookupRegister_daily_pv_generation :
    lookupRegister "daily_pv_generation" = some daily_pv_generation := by
  simp [lookupRegister, ALL_REGISTERS, ALL_GROUPS, DEVICE_GROUP, PV_GROUP,
    EXPORT_GROUP, LOAD_GROUP, BATTERY_GROUP, serial_number, device_type_code,
    total_dc_power, daily_pv_generation, List.find?]

theorem lookupRegister_battery_power :
    lookupRegister "battery_power" = some battery_power := by
  simp [lookupRegister, ALL_REGISTERS, ALL_GROUPS, DEVICE_GROUP, PV_GROUP,
    EXPORT_GROUP, LOAD_GROUP, BATTERY_GROUP, serial_number, device_type_code,
    total_dc_power, daily_pv_generation, mppt1_voltage, mppt1_current,
    mppt2_voltage, mppt2_current, total_pv_generation, export_power,
    load_power, grid_power, daily_direct_consumption, battery_power,
    List.find?]

theorem lookupRegister_battery_soc :
    lookupRegister "battery_soc" = some battery_soc := by
  simp [lookupRegister, ALL_REGISTERS, ALL_GROUPS, DEVICE_GROUP, PV_GROUP,
    EXPORT_GROUP, LOAD_GROUP, BATTERY_GROUP, serial_number, device_type_code,
    total_dc_power, daily_pv_generation, mppt1_voltage, mppt1_current,
    mppt2_voltage, mppt2_current, total_pv_generation, export_power,
    load_power, grid_power, daily_direct_consumption, battery_power,
    battery_soc, List.find?]

theorem lookupRegister_battery_temperature :
    lookupRegister "battery_temperature" = some battery_temperature := by
  simp [lookupRegister, ALL_REGISTERS, ALL_GROUPS, DEVICE_GROUP, PV_GROUP,
    EXPORT_GROUP, LOAD_GROUP, BATTERY_GROUP, serial_number, device_type_code,
    total_dc_power, daily_pv_generation, mppt1_voltage, mppt1_current,
    mppt2_voltage, mppt2_current, total_pv_generation, export_power,
    load_power, grid_power, daily_direct_consumption, battery_power,
    battery_soc, battery_temperature, List.find?]

theorem lookupRegister_load_power :
    lookupRegister "load_power" = some load_power := by
  simp [lookupRegister, ALL_REGISTERS, ALL_GROUPS, DEVICE_GROUP, PV_GROUP,
    EXPORT_GROUP, LOAD_GROUP, BATTERY_GROUP, serial_number, device_type_code,
    total_dc_power, daily_pv_generation, mppt1_voltage, mppt1_current,
    mppt2_voltage, mppt2_current, total_pv_generation, export_power,
    load_power, List.find?]

theorem lookupRegister_grid_power :
    lookupRegister "grid_power" = some grid_power := by
  simp [lookupRegister, ALL_REGISTERS, ALL_GROUPS, DEVICE_GROUP, PV_GROUP,
    EXPORT_GROUP, LOAD_GROUP, BATTERY_GROUP, serial_number, device_type_code,
    total_dc_power, daily_pv_generation, mppt1_voltage, mppt1_current,
    mppt2_voltage, mppt2_current, total_pv_generation, export_power,
    load_power, grid_power, List.find?]

theorem fieldValue_total_dc_power (raw : RawMap) :
    fieldValue "total_dc_power" raw = extractValue total_dc_power raw := by
  rw [fieldValue, lookupRegister_total_dc_power]

theorem fieldValue_daily_pv_generation (raw : RawMap) :
    fieldValue "daily_pv_generation" raw =
      extractValue daily_pv_generation raw := by
  rw [fieldValue, lookupRegister_daily_pv_generation]

theorem fieldValue_battery_power (raw : RawMap) :
    fieldValue "battery_power" raw = extractValue battery_power raw := by
  rw [fieldValue, lookupRegister_battery_power]

theorem fieldValue_battery_soc (raw : RawMap) :
    fieldValue "battery_soc" raw = extractValue battery_soc raw := by
  rw [fieldValue, lookupRegister_battery_soc]

theorem fieldValue_battery_temperature (raw : RawMap) :
    fieldValue "battery_temperature" raw =
      extractValue battery_temperature raw := by
  rw [fieldValue, lookupRegister_battery_temperature]

theorem fieldValue_load_power (raw : RawMap) :
    fieldValue "load_power" raw = extractValue load_power raw := by
  rw [fieldValue, lookupRegister_load_power]

/-- `normalize` as the bind-chain of the seven field extractions over the
named catalog entries. -/
theorem normalize_eq_chain (raw : RawMap) (dev : String) (ts : Int) :
    Edge.normalize raw dev ts =
      (extractValue total_dc_power raw).bind (fun pv =>
        (extractValue daily_pv_generation raw).bind (fun pvDaily =>
          (extractValue battery_power raw).bind (fun batPower =>
            (extractValue battery_soc raw).bind (fun batSoc =>
              (extractValue battery_temperature raw).bind (fun batTemp =>
                (extractValue load_power raw).bind (fun load =>
                  (exportFieldValue raw).bind (fun exp =>
                    some ⟨dev, ts, pv, pvDaily, batPower, batSoc, batTemp,
                      load, exp⟩))))))) := by
  rw [Edge.normalize]
  rw [fieldValue_total_dc_power, fieldValue_daily_pv_generation,
    fieldValue_battery_power, fieldValue_battery_soc,
    fieldValue_battery_temperature, fieldValue_load_power]
  rfl

theorem lookupRegister_export_power :
    lookupRegister "export_power" = some export_power := by
  simp [lookupRegister, ALL_REGISTERS, ALL_GROUPS, DEVICE_GROUP, PV_GROUP,
    EXPORT_GROUP, LOAD_GROUP, BATTERY_GROUP, serial_number, device_type_code,
    total_dc_power, daily_pv_generation, mppt1_voltage, mppt1_current,
    mppt2_voltage, mppt2_current, total_pv_generation, export_power,
    List.find?]

theorem exportFieldValue_fallback (raw : RawMap) (g : ℚ)
    (hexp : raw.lookup "export_power" = none)
    (hgrid : extractValue grid_power raw = some g) :
    exportFieldValue raw = some (-g) := by
  rw [exportFieldValue, hexp]
  simp [lookupRegister_grid_power, hgrid]

theorem extractValue_absent (reg : RegisterDef) (raw : RawMap)
    (h : raw.lookup reg.name = none) : extractValue reg raw = none := by
  rw [extractValue, h]

theorem exportFieldValue_grid_invalid (raw : RawMap)
    (hexp : raw.lookup "export_power" = none)
    (hgrid : extractValue grid_power raw = none) :
    exportFieldValue raw = none := by
  have habs : extractValue export_power raw = none :=
    extractValue_absent export_power raw hexp
  rw [exportFieldValue, hexp]
  simp [lookupRegister_grid_power, hgrid, fieldValue,
    lookupRegister_export_power, habs]

/-- C4: for an S32 register whose assembled, scaled value falls outside
its valid range, `_extract_value` falls back to interpreting the low
word as S16 exactly when the high word is 0x0000 or 0xFFFF and the
fallback value is inside the range; otherwise it returns None. -/
theorem extract_value_s32_low_word_fallback (reg : RegisterDef)
    (raw : RawMap) (w0 w1 : Nat) (rest : List Nat) (lo hi : ℚ)
    (htype : reg.reg_type = "S32")
    (hrange : reg.valid_range = some (lo, hi))
    (hlook : raw.lookup reg.name = some (w0 :: w1 :: rest))
    (hout : ¬(lo ≤ (convert_s32 w0 w1 : ℚ) * reg.scale ∧
              (convert_s32 w0 w1 : ℚ) * reg.scale ≤ hi)) :
    extractValue reg raw =
      if (w0 = 0 ∨ w0 = 65535) ∧
          lo ≤ (convert_s16 w1 : ℚ) * reg.scale ∧
          (convert_s16 w1 : ℚ) * reg.scale ≤ hi
      then some ((convert_s16 w1 : ℚ) * reg.scale) else none := by
  rw [extractValue, hlook]
  simp only [htype]
  norm_num [rangeValidate, hrange, hout]
  split_ifs with h1 h2 h3 h4 h5 <;> simp_all

/-- C4 witness: the firmware variant observed on `load_power`, raw words
`[0, 62000]`: the S32 reading 62000 is outside (-20000, 50000), the high
word is 0, and the S16 low word gives -3536, inside range. -/
theorem extract_value_s32_low_word_fallback_witness :
    extractValue load_power [("load_power", [0, 62000])] = some (-3536) := by
  have h := extract_value_s32_low_word_fallback load_power
    [("load_power", [0, 62000])] 0 62000 [] (-20000) 50000 rfl rfl
    (by simp [RawMap.lookup, List.lookup, load_power])
    (by norm_num [convert_s32, load_power])
  rw [h]
  norm_num [convert_s16, load_power]

/-- C5 (amended): on a raw map without the `export_power` key, when grid
power extracts to `g` and every other mapped register also extracts,
`normalize` produces the sample with `export_power_w = -g`; when grid
power is absent or invalid, `normalize` rejects the whole sample. -/
theorem normalize_export_grid_fallback (raw : RawMap) (dev : String)
    (ts : Int) (hexp : raw.lookup "export_power" = none) :
    (∀ g pv d bp soc bt lp,
      extractValue grid_power raw = some g →
      extractValue total_dc_power raw = some pv →
      extractValue daily_pv_generation raw = some d →
      extractValue battery_power raw = some bp →
      extractValue battery_soc raw = some soc →
      extractValue battery_temperature raw = some bt →
      extractValue load_power raw = some lp →
      Edge.normalize raw dev ts =
        some ⟨dev, ts, pv, d, bp, soc, bt, lp, -g⟩) ∧
    (extractValue grid_power raw = none →
      Edge.normalize raw dev ts = none) := by
  constructor
  · intro g pv d bp soc bt lp hg h1 h2 h3 h4 h5 h6
    rw [normalize_eq_chain, h1, h2, h3, h4, h5, h6,
      exportFieldValue_fallback raw g hexp hg]
    rfl
  · intro hg
    rw [normalize_eq_chain, exportFieldValue_grid_invalid raw hexp hg]
    cases extractValue total_dc_power raw <;>
      cases extractValue daily_pv_generation raw <;>
      cases extractValue battery_power raw <;>
      cases extractValue battery_soc raw <;>
      cases extractValue battery_temperature raw <;>
      cases extractValue load_power raw <;> rfl

/-- C5 witness: a raw map with every register except `export_power`;
grid power 100 W turns into `export_power_w = -100`. -/
theorem normalize_export_grid_fallback_witness :
    Edge.normalize
      [("total_dc_power", [0, 1000]), ("daily_pv_generation", [50]),
       ("battery_power", [100]), ("battery_soc", [500]),
       ("battery_temperature", [250]), ("load_power", [0, 2000]),
       ("grid_power", [100])] "dev" 0 =
      some ⟨"dev", 0, 1000, 5, 100, 50, 25, 2000, -100⟩ :=
  (normalize_export_grid_fallback _ "dev" 0
      (by simp [RawMap.lookup, List.lookup])).1
    100 1000 5 100 50 25 2000
    (by norm_num +decide [extractValue, grid_power, rangeValidate,
      RawMap.lookup, List.lookup, convert_s16])
    (by norm_num +decide [extractValue, total_dc_power, rangeValidate,
      RawMap.lookup, List.lookup, convert_u32])
    (by simp [extractValue, daily_pv_generation, rangeValidate,
      RawMap.lookup, List.lookup, convert_u16]; norm_num)
    (by norm_num +decide [extractValue, battery_power, rangeValidate,
      RawMap.lookup, List.lookup, convert_s16])
    (by simp [extractValue, battery_soc, rangeValidate,
      RawMap.lookup, List.lookup, convert_u16]; norm_num)
    (by simp [extractValue, battery_temperature, rangeValidate,
      RawMap.lookup, List.lookup, convert_u16]; norm_num)
    (by simp [extractValue, load_power, rangeValidate,
      RawMap.lookup, List.lookup, convert_s32]; norm_num)

/-- C5 counterexample: a raw map holding only a valid `grid_power` has no
`export_power` key and grid power extracts to 100, yet `normalize`
returns None (the other required registers are missing), so the claim's
unconditional "produces a sample with export_power_w = -g" fails. -/
theorem normalize_export_counterexample :
    ([("grid_power", [100])] : RawMap).lookup "export_power" = none ∧
    extractValue grid_power [("grid_power", [100])] = some 100 ∧
    Edge.normalize [("grid_power", [100])] "dev" 0 = none := by
  refine ⟨by simp [RawMap.lookup, List.lookup], ?_, ?_⟩
  · norm_num +decide [extractValue, grid_power, rangeValidate,
      RawMap.lookup, List.lookup, convert_s16]
  · rw [normalize_eq_chain,
      extractValue_absent total_dc_power _ (by simp [RawMap.lookup,
        List.lookup, total_dc_power])]
    rfl

/-- C10: a raw map on which `daily_pv_generation` or
`battery_temperature` fails extraction (absent key included) makes
`normalize` reject the whole sample — there is no fallback for these
fields, matching the edge `SungrowSample` model where `pv_daily_kwh` and
`battery_temp_c` are required. -/
theorem normalize_requires_daily_and_battery_temp (raw : RawMap)
    (dev : String) (ts : Int)
    (h : extractValue daily_pv_generation raw = none ∨
         extractValue battery_temperature raw = none) :
    Edge.normalize raw dev ts = none := by
  rw [normalize_eq_chain]
  rcases h with h | h <;> rw [h]
  · cases extractValue total_dc_power raw <;> rfl
  · cases extractValue total_dc_power raw <;>
      cases extractValue daily_pv_generation raw <;>
      cases extractValue battery_power raw <;>
      cases extractValue battery_soc raw <;> rfl

/-- C10 witness: raw map missing `daily_pv_generation` entirely. -/
theorem normalize_requires_daily_and_battery_temp_witness :
    Edge.normalize [("total_dc_power", [0, 1000])] "dev" 0 = none :=
  normalize_requires_daily_and_battery_temp _ "dev" 0
    (Or.inl (extractValue_absent daily_pv_generation _
      (by simp [RawMap.lookup, List.lookup, daily_pv_generation])))

end NormalizerClaims

/-! ## Poll cycle (`edge/src/poller.py`, `_do_poll`) -/

namespace Edge

/-- Outcome of one `client.read_input_registers` call for a group:
`error` when `response.isError()` is true, else the raw word list. -/
inductive ModbusResponse where
  | error
  | ok (registers : List Nat)
deriving DecidableEq

/-- `_extract_register_values`: slice the group's raw words into
per-register word lists by address offset (register names are unique, so
appending keyed pairs models the dict update). -/
def extractRegisterValues (g : RegisterGroup) (rawWords : List Nat)
    (out : List (String × List Nat)) : List (String × List Nat) :=
  g.registers.foldl
    (fun acc reg =>
      acc ++ [(reg.name,
        (rawWords.drop (reg.address - g.start_address)).take reg.word_count)])
    out

/-- The group-read loop of `_do_poll` (after a successful connect),
parameterised by the per-group read outcome `read`: an error on the
group named "export" skips that group, an error on any other group
aborts the cycle with None, a successful read extracts that group's
registers into the accumulated result. -/
def doPollGroups (read : String → ModbusResponse) :
    List RegisterGroup → List (String × List Nat) →
      Option (List (String × List Nat))
  | [], out => some out
  | g :: rest, out =>
    match read g.group_name with
    | .error =>
      if g.group_name = "export" then doPollGroups read rest out else none
    | .ok words => doPollGroups read rest (extractRegisterValues g words out)

/-- `_do_poll` over `ALL_GROUPS` with an empty result dict. -/
def doPoll (read : String → ModbusResponse) :
    Option (List (String × List Nat)) :=
  doPollGroups read ALL_GROUPS []

/-- All register names contributed by a list of groups. -/
def registerNames (gs : List RegisterGroup) : List String :=
  (gs.map (fun g => g.registers.map (fun r => r.name))).flatten

end Edge

section PollerClaims

open Edge

theorem foldl_append_pair_fst {α : Type} (rs : List α)
    (f : α → String × List Nat) (out : List (String × List Nat)) :
    ((rs.foldl (fun acc r => acc ++ [f r]) out).map Prod.fst) =
      out.map Prod.fst ++ rs.map (fun r => (f r).1) := by
  induction rs generalizing out with
  | nil => simp
  | cons r rest ih => simp [List.foldl_cons, ih]

theorem extractRegisterValues_fst (g : RegisterGroup) (ws : List Nat)
    (out : List (String × List Nat)) :
    (extractRegisterValues g ws out).map Prod.fst =
      out.map Prod.fst ++ g.registers.map (fun r => r.name) := by
  rw [extractRegisterValues, foldl_append_pair_fst]

theorem doPollGroups_nonexport_error (read : String → ModbusResponse)
    (gs : List RegisterGroup) (out : List (String × List Nat))
    (h : ∃ g ∈ gs, g.group_name ≠ "export" ∧
      read g.group_name = ModbusResponse.error) :
    doPollGroups read gs out = none := by
  induction gs generalizing out with
  | nil => simp at h
  | cons g rest ih =>
    obtain ⟨g', hg', hname, herr⟩ := h
    rcases List.mem_cons.mp hg' with rfl | hmem
    · rw [doPollGroups, herr]
      simp [hname]
    · cases hr : read g.group_name with
      | error =>
        rw [doPollGroups, hr]
        by_cases hg : g.group_name = "export"
        · simp only [hg, if_pos rfl]
          exact ih out ⟨g', hmem, hname, herr⟩
        · simp [hg]
      | ok ws =>
        rw [doPollGroups, hr]
        exact ih _ ⟨g', hmem, hname, herr⟩

theorem doPollGroups_skip_export (read : String → ModbusResponse)
    (g : RegisterGroup) (hg : g.group_name = "export")
    (herr : read g.group_name = ModbusResponse.error)
    (pre post : List RegisterGroup) (out : List (String × List Nat)) :
    doPollGroups read (pre ++ g :: post) out =
      doPollGroups read (pre ++ post) out := by
  induction pre generalizing out with
  | nil =>
    rw [List.nil_append, List.nil_append, doPollGroups, herr]
    simp [hg]
  | cons p pre' ih =>
    rw [List.cons_append, List.cons_append, doPollGroups, doPollGroups]
    cases hr : read p.group_name with
    | error =>
      by_cases hp : p.group_name = "export"
      · simp only [hp, if_pos rfl]
        exact ih out
      · simp [hp]
    | ok ws => exact ih _

theorem doPollGroups_keys (read : String → ModbusResponse)
    (gs : List RegisterGroup) (out : List (String × List Nat))
    (name : String) (m : List (String × List Nat))
    (hrun : doPollGroups read gs out = some m)
    (hout : name ∉ out.map Prod.fst)
    (hgs : name ∉ registerNames gs) :
    name ∉ m.map Prod.fst := by
  induction gs generalizing out with
  | nil =>
    rw [doPollGroups] at hrun
    cases hrun
    exact hout
  | cons g rest ih =>
    rw [doPollGroups] at hrun
    have hsplit : name ∉ g.registers.map (fun r => r.name) ∧
        name ∉ registerNames rest := by
      constructor <;> intro hc <;> exact hgs (by
        simp only [registerNames, List.map_cons, List.flatten_cons,
          List.mem_append] at *
        tauto)
    cases hr : read g.group_name with
    | error =>
      rw [hr] at hrun
      by_cases hgname : g.group_name = "export"
      · rw [if_pos hgname] at hrun
        exact ih out hrun hout hsplit.2
      · rw [if_neg hgname] at hrun
        cases hrun
    | ok ws =>
      rw [hr] at hrun
      refine ih _ hrun ?_ hsplit.2
      rw [extractRegisterValues_fst]
      simp only [List.mem_append]
      rintro (hc | hc)
      · exact hout hc
      · exact hsplit.1 hc

/-- C9: in `_do_poll`, any error response on the group named "export"
lets the cycle continue exactly as if the export group were not in the
catalog (so `export_power` is absent from the result), while an error
response on any other group makes the whole cycle return None. -/
theorem do_poll_export_optional (read : String → ModbusResponse) :
    ((∃ g ∈ ALL_GROUPS, g.group_name ≠ "export" ∧
        read g.group_name = ModbusResponse.error) →
      doPoll read = none) ∧
    (read "export" = ModbusResponse.error →
      doPoll read =
        doPollGroups read [DEVICE_GROUP, PV_GROUP, LOAD_GROUP, BATTERY_GROUP]
          [] ∧
      ∀ m, doPoll read = some m → "export_power" ∉ m.map Prod.fst) := by
  constructor
  · intro h
    exact doPollGroups_nonexport_error read ALL_GROUPS [] h
  · intro herr
    have hskip :
        doPoll read =
          doPollGroups read
            [DEVICE_GROUP, PV_GROUP, LOAD_GROUP, BATTERY_GROUP] [] := by
      show doPollGroups read ALL_GROUPS [] = _
      have : ALL_GROUPS =
          [DEVICE_GROUP, PV_GROUP] ++ EXPORT_GROUP ::
            [LOAD_GROUP, BATTERY_GROUP] := rfl
      rw [this, doPollGroups_skip_export read EXPORT_GROUP rfl herr]
      rfl
    refine ⟨hskip, fun m hm => ?_⟩
    rw [hskip] at hm
    refine doPollGroups_keys read _ [] "export_power" m hm (by simp) ?_
    simp [registerNames, DEVICE_GROUP, PV_GROUP, LOAD_GROUP, BATTERY_GROUP,
      serial_number, device_type_code, total_dc_power, daily_pv_generation,
      mppt1_voltage, mppt1_current, mppt2_voltage, mppt2_current,
      total_pv_generation, load_power, grid_power, daily_direct_consumption,
      battery_power, battery_soc, battery_temperature,
      daily_battery_discharge, daily_battery_charge]

/-- Read outcome where the device group errors and every other group
reads 15 zero words. -/
def demoReadDeviceError : String → ModbusResponse := fun n =>
  if n = "device" then ModbusResponse.error
  else ModbusResponse.ok (List.replicate 15 0)

/-- Read outcome where only the export group errors. -/
def demoReadExportError : String → ModbusResponse := fun n =>
  if n = "export" then ModbusResponse.error
  else ModbusResponse.ok (List.replicate 15 0)

/-- The poll result under `demoReadExportError`. -/
def demoPollResult : List (String × List Nat) :=
  [("serial_number", List.replicate 10 0), ("device_type_code", [0]),
   ("total_dc_power", [0, 0]), ("daily_pv_generation", [0]),
   ("mppt1_voltage", [0]), ("mppt1_current", [0]),
   ("mppt2_voltage", [0]), ("mppt2_current", [0]),
   ("total_pv_generation", [0, 0]),
   ("load_power", [0, 0]), ("grid_power", [0]),
   ("daily_direct_consumption", [0]),
   ("battery_power", [0]), ("battery_soc", [0]),
   ("battery_temperature", [0]), ("daily_battery_discharge", [0]),
   ("daily_battery_charge", [0])]

/-- C9 witness: a device-group error aborts the cycle; an export-group
error leaves a successful cycle whose result omits `export_power`. -/
theorem do_poll_export_optional_witness :
    doPoll demoReadDeviceError = none ∧
    doPoll demoReadExportError =
      doPollGroups demoReadExportError
        [DEVICE_GROUP, PV_GROUP, LOAD_GROUP, BATTERY_GROUP] [] ∧
    "export_power" ∉ demoPollResult.map Prod.fst :=
  ⟨(do_poll_export_optional demoReadDeviceError).1
      ⟨DEVICE_GROUP, by decide, by decide, by decide⟩,
   ((do_poll_export_optional demoReadExportError).2 (by decide)).1,
   ((do_poll_export_optional demoReadExportError).2 (by decide)).2
      demoPollResult (by decide)⟩

end PollerClaims

/-! ## Durable spool (`edge/src/spool.py`)

The spool's sequence behaviour is decided by its schema:
`rowid INTEGER PRIMARY KEY AUTOINCREMENT` plus plain `INSERT` / `DELETE`
statements.  Per SQLite's documented AUTOINCREMENT semantics, a new row
gets `max(largest rowid ever used) + 1`, with the largest-ever value
persisted in `sqlite_sequence` inside the same database file, so it
survives close/reopen and is never lowered by deletes.  The model below
carries that persistent counter as `nextSeq`. -/

namespace Spool

/-- Persistent state of the backing SQLite file: the next AUTOINCREMENT
rowid and the live rows (rowid, payload) in insertion order. -/
structure SpoolState where
  nextSeq : Nat
  rows : List (Nat × String)
deriving DecidableEq

/-- Fresh database file: AUTOINCREMENT starts handing out rowid 1. -/
def initState : SpoolState := ⟨1, []⟩

/-- Spool operations that touch the backing file.  `closeReopen` models
`close()` followed by a new `Spool` on the same path (e.g. a process
restart); `peek` reads without mutating. -/
inductive Op where
  | enqueue (payload : String)
  | ack (seqs : List Nat)
  | peek (n : Nat)
  | closeReopen
deriving DecidableEq

/-- Effect of one operation on the backing file: `enqueue` appends the
row under the AUTOINCREMENT rowid and bumps the counter, `ack` deletes
exactly the listed rowids, `peek` and `closeReopen` leave the file
unchanged. -/
def applyOp (s : SpoolState) : Op → SpoolState
  | .enqueue p => ⟨s.nextSeq + 1, s.rows ++ [(s.nextSeq, p)]⟩
  | .ack seqs => ⟨s.nextSeq, s.rows.filter (fun r => r.1 ∉ seqs)⟩
  | .peek _ => s
  | .closeReopen => s

/-- Run a sequence of operations from a state. -/
def runOps (s : SpoolState) (ops : List Op) : SpoolState :=
  ops.foldl applyOp s

/-- The rowids assigned to enqueued entries, in enqueue order. -/
def assignedSeqs (s : SpoolState) : List Op → List Nat
  | [] => []
  | op :: rest =>
    match op with
    | .enqueue _ => s.nextSeq :: assignedSeqs (applyOp s op) rest
    | _ => assignedSeqs (applyOp s op) rest

end Spool

section SpoolClaims

open Spool

theorem applyOp_nextSeq_mono (s : SpoolState) (op : Op) :
    s.nextSeq ≤ (applyOp s op).nextSeq := by
  cases op <;> simp [applyOp]

theorem assignedSeqs_lower_bound (ops : List Op) (s : SpoolState) :
    ∀ q ∈ assignedSeqs s ops, s.nextSeq ≤ q := by
  induction ops generalizing s with
  | nil => simp [assignedSeqs]
  | cons op rest ih =>
    intro q hq
    have hmono := applyOp_nextSeq_mono s op
    cases op with
    | enqueue p =>
      rcases List.mem_cons.mp hq with rfl | hmem
      · exact le_refl _
      · exact le_trans hmono (ih _ q hmem)
    | ack seqs => exact le_trans hmono (ih _ q hq)
    | peek n => exact le_trans hmono (ih _ q hq)
    | closeReopen => exact le_trans hmono (ih _ q hq)

theorem assignedSeqs_chain (ops : List Op) (s : SpoolState) :
    (assignedSeqs s ops).Chain' (· < ·) := by
  induction ops generalizing s with
  | nil => simp [assignedSeqs]
  | cons op rest ih =>
    cases op with
    | enqueue p =>
      rw [assignedSeqs]
      rw [List.chain'_cons']
      refine ⟨fun b hb => ?_, ih _⟩
      have hball := assignedSeqs_lower_bound rest (applyOp s (.enqueue p))
      have : (applyOp s (.enqueue p)).nextSeq ≤ b := by
        apply hball
        exact List.mem_of_mem_head? hb
      simp only [applyOp] at this
      omega
    | ack seqs => exact ih _
    | peek n => exact ih _
    | closeReopen => exact ih _

theorem runOps_nextSeq_mono (ops : List Op) (s : SpoolState) :
    s.nextSeq ≤ (runOps s ops).nextSeq := by
  induction ops generalizing s with
  | nil => exact le_refl _
  | cons o r ih => exact le_trans (applyOp_nextSeq_mono s o) (ih _)

theorem assignedSeqs_upper_bound (ops : List Op) (s : SpoolState) :
    ∀ q ∈ assignedSeqs s ops, q < (runOps s ops).nextSeq := by
  induction ops generalizing s with
  | nil => simp [assignedSeqs]
  | cons op rest ih =>
    intro q hq
    cases op with
    | enqueue p =>
      rcases List.mem_cons.mp hq with rfl | hmem
      · calc s.nextSeq < (applyOp s (.enqueue p)).nextSeq := by
              simp [applyOp]
          _ ≤ (runOps _ rest).nextSeq := runOps_nextSeq_mono rest _
      · exact ih _ q hmem
    | ack seqs => exact ih _ q hq
    | peek n => exact ih _ q hq
    | closeReopen => exact ih _ q hq

theorem assignedSeqs_append (ops₁ ops₂ : List Op) (s : SpoolState) :
    assignedSeqs s (ops₁ ++ ops₂) =
      assignedSeqs s ops₁ ++ assignedSeqs (runOps s ops₁) ops₂ := by
  induction ops₁ generalizing s with
  | nil => rfl
  | cons op rest ih =>
    cases op <;> simp [assignedSeqs, runOps, ih]

/-- C6: over any sequence of spool operations — enqueue, ack, peek,
close/reopen on the same backing file — the assigned rowids are strictly
increasing, and every rowid assigned in a prefix of the history (hence
any rowid later deleted by ack) is strictly below every rowid assigned
afterwards, so a deleted sequence is never reused. -/
theorem spool_sequences_never_reused (ops : List Op) :
    (assignedSeqs initState ops).Chain' (· < ·) ∧
    (∀ ops₁ ops₂, ops = ops₁ ++ ops₂ →
      ∀ q ∈ assignedSeqs initState ops₁,
        ∀ r ∈ assignedSeqs (runOps initState ops₁) ops₂, q < r) := by
  refine ⟨assignedSeqs_chain ops initState, ?_⟩
  rintro ops₁ ops₂ rfl q hq r hr
  calc q < (runOps initState ops₁).nextSeq :=
        assignedSeqs_upper_bound ops₁ initState q hq
    _ ≤ r := assignedSeqs_lower_bound ops₂ _ r hr

/-- C6 witness: enqueue, ack the first rowid, restart, enqueue again —
the deleted rowid 1 is not reassigned; the second enqueue gets 2. -/
theorem spool_sequences_never_reused_witness :
    (assignedSeqs initState
      [Op.enqueue "a", Op.ack [1], Op.closeReopen,
       Op.enqueue "b"]).Chain' (· < ·) ∧
    (1 : Nat) < 2 :=
  ⟨(spool_sequences_never_reused
      [Op.enqueue "a", Op.ack [1], Op.closeReopen, Op.enqueue "b"]).1,
   (spool_sequences_never_reused
      [Op.enqueue "a", Op.ack [1], Op.closeReopen, Op.enqueue "b"]).2
      [Op.enqueue "a", Op.ack [1]] [Op.closeReopen, Op.enqueue "b"] rfl
      1 (by decide) 2 (by decide)⟩

end SpoolClaims

/-! ## Ingestion (`vps/src/services/ingestion.py`, `vps/src/api/ingest.py`) -/

namespace Vps

/-- `SampleIn` pydantic model of the ingest endpoint (timestamps as
instants, floats as rationals). -/
structure SampleIn where
  device_id : String
  ts : Int
  pv_power_w : ℚ
  pv_daily_kwh : Option ℚ
  battery_power_w : ℚ
  battery_soc_pct : ℚ
  battery_temp_c : Option ℚ
  load_power_w : ℚ
  export_power_w : ℚ
  sample_count : Nat
deriving DecidableEq

/-- The idempotency key: the `(device_id, ts)` composite primary key of
`sungrow_samples`. -/
def sampleKey (s : SampleIn) : String × Int := (s.device_id, s.ts)

/-- The `sungrow_samples` table, rows in insertion order. -/
abbrev Store : Type := List SampleIn

/-- The keys present in the store. -/
def storeKeys (st : Store) : List (String × Int) :=
  List.map sampleKey st

/-- `ingest_samples`: `INSERT ... ON CONFLICT (device_id, ts) DO NOTHING`
row by row in batch order (per PostgreSQL semantics a row conflicting
with an existing row, or with a row inserted earlier in the same
statement, is skipped), returning the count of rows actually inserted
and the new table state. -/
def ingestSamples (st : Store) (samples : List SampleIn) : Nat × Store :=
  match samples with
  | [] => (0, st)
  | s :: rest =>
    if sampleKey s ∈ storeKeys st then ingestSamples st rest
    else
      let r := ingestSamples (st ++ [s]) rest
      (r.1 + 1, r.2)

/-- The post-parse pipeline of the `ingest` route: empty-batch fast path
(200, inserted 0), then the batch-size cap (413), then per-sample
device ownership (403), then the idempotent bulk insert (200 with the
inserted count).  Result is (status, inserted, table state);
`max_samples` is `int(config.get("MAX_SAMPLES_PER_REQUEST", "1000"))`. -/
def ingestEndpoint (auth_device_id : String) (max_samples : Int)
    (samples : List SampleIn) (st : Store) : Nat × Nat × Store :=
  if samples.isEmpty then (200, 0, st)
  else if (samples.length : Int) > max_samples then (413, 0, st)
  else if samples.any (fun s => s.device_id ≠ auth_device_id) then
    (403, 0, st)
  else
    let r := ingestSamples st samples
    (200, r.1, r.2)

end Vps

section IngestClaims

open Vps

theorem storeKeys_append (st : Store) (s : SampleIn) :
    storeKeys (st ++ [s]) = storeKeys st ++ [sampleKey s] := by
  simp [storeKeys]

theorem ingestSamples_keys (samples : List SampleIn) (st : Store)
    (k : String × Int) :
    k ∈ storeKeys (ingestSamples st samples).2 ↔
      k ∈ storeKeys st ∨ k ∈ samples.map sampleKey := by
  induction samples generalizing st with
  | nil => simp [ingestSamples]
  | cons s rest ih =>
    rw [ingestSamples]
    by_cases hs : sampleKey s ∈ storeKeys st
    · rw [if_pos hs, ih]
      simp only [List.map_cons, List.mem_cons]
      constructor
      · rintro (h | h)
        · exact Or.inl h
        · exact Or.inr (Or.inr h)
      · rintro (h | rfl | h)
        · exact Or.inl h
        · exact Or.inl hs
        · exact Or.inr h
    · rw [if_neg hs]
      show k ∈ storeKeys (ingestSamples (st ++ [s]) rest).2 ↔ _
      rw [ih, storeKeys_append]
      simp only [List.mem_append, List.mem_singleton, List.map_cons,
        List.mem_cons]
      tauto

theorem ingestSamples_all_present (samples : List SampleIn) (st : Store)
    (h : ∀ s ∈ samples, sampleKey s ∈ storeKeys st) :
    ingestSamples st samples = (0, st) := by
  induction samples with
  | nil => rfl
  | cons s rest ih =>
    rw [ingestSamples, if_pos (h s (List.mem_cons_self s rest))]
    exact ih (fun x hx => h x (List.mem_cons_of_mem s hx))

theorem ingestSamples_count (samples : List SampleIn) (st : Store) :
    (ingestSamples st samples).1 =
      ((samples.map sampleKey).toFinset \ (storeKeys st).toFinset).card := by
  induction samples generalizing st with
  | nil => simp [ingestSamples]
  | cons s rest ih =>
    rw [ingestSamples]
    rw [List.map_cons, List.toFinset_cons]
    by_cases hs : sampleKey s ∈ storeKeys st
    · rw [if_pos hs, ih,
        Finset.insert_sdiff_of_mem _ (List.mem_toFinset.mpr hs)]
    · rw [if_neg hs]
      show (ingestSamples (st ++ [s]) rest).1 + 1 = _
      rw [ih, storeKeys_append, List.toFinset_append,
        Finset.insert_sdiff_of_not_mem _ (fun hc => hs
          (List.mem_toFinset.mp hc))]
      have hunion : (storeKeys st).toFinset ∪ [sampleKey s].toFinset =
          insert (sampleKey s) (storeKeys st).toFinset := by
        ext k
        simp [or_comm]
      rw [hunion, Finset.sdiff_insert]
      by_cases hmem : sampleKey s ∈
          (rest.map sampleKey).toFinset \ (storeKeys st).toFinset
      · rw [Finset.card_erase_add_one hmem,
          Finset.insert_eq_self.mpr hmem]
      · rw [Finset.erase_eq_of_not_mem hmem,
          Finset.card_insert_of_not_mem hmem]

/-- C7: ingesting a batch whose keys are absent from the store and then
ingesting the same batch again inserts, in total, exactly the number of
distinct `(device_id, ts)` keys in the batch, and the second ingest
leaves the table unchanged. -/
theorem ingest_twice_idempotent (st : Store) (batch : List SampleIn)
    (h : ∀ s ∈ batch, sampleKey s ∉ storeKeys st) :
    (ingestSamples st batch).1 +
        (ingestSamples (ingestSamples st batch).2 batch).1 =
      (batch.map sampleKey).toFinset.card ∧
    (ingestSamples (ingestSamples st batch).2 batch).2 =
      (ingestSamples st batch).2 := by
  have hsecond : ingestSamples (ingestSamples st batch).2 batch =
      (0, (ingestSamples st batch).2) := by
    apply ingestSamples_all_present
    intro s hs
    rw [ingestSamples_keys]
    exact Or.inr (List.mem_map_of_mem sampleKey hs)
  refine ⟨?_, by rw [hsecond]⟩
  rw [hsecond, ingestSamples_count]
  have : (batch.map sampleKey).toFinset \ (storeKeys st).toFinset =
      (batch.map sampleKey).toFinset := by
    apply Finset.sdiff_eq_self_of_disjoint
    rw [Finset.disjoint_left]
    intro k hk hk'
    simp only [List.mem_toFinset, List.mem_map] at hk hk'
    obtain ⟨s, hs, rfl⟩ := hk
    exact h s hs hk'
  rw [this]
  simp

/-- Sample batch with one duplicate key: dev-1 at ts 0, dev-1 at ts 60,
dev-1 at ts 0 again → 2 distinct keys. -/
def demoBatch : List SampleIn :=
  [⟨"dev-1", 0, 3500, some (25/2), -1500, 75, some 25, 2000, 0, 1⟩,
   ⟨"dev-1", 60, 3600, some 13, -1500, 75, some 25, 2000, 0, 1⟩,
   ⟨"dev-1", 0, 3500, some (25/2), -1500, 75, some 25, 2000, 0, 1⟩]

/-- C7 witness: ingesting `demoBatch` twice into an empty store inserts
2 rows in total (its distinct key count) and the second pass is a
no-op. -/
theorem ingest_twice_idempotent_witness :
    (ingestSamples [] demoBatch).1 +
        (ingestSamples (ingestSamples [] demoBatch).2 demoBatch).1 =
      (demoBatch.map sampleKey).toFinset.card ∧
    (ingestSamples (ingestSamples [] demoBatch).2 demoBatch).2 =
      (ingestSamples [] demoBatch).2 :=
  ingest_twice_idempotent [] demoBatch (by simp [storeKeys])

/-- C8: the ingest route answers an empty samples list with 200 and
inserted 0 leaving the table untouched — before the batch-size check,
so even when the configured cap would reject a length-0 batch — and a
non-empty batch longer than `max_samples_per_request` with 413, writing
no row. -/
theorem ingest_empty_then_oversize (auth : String) (maxSamples : Int)
    (samples : List SampleIn) (st : Store) :
    (samples = [] → ingestEndpoint auth maxSamples samples st = (200, 0, st)) ∧
    (samples ≠ [] → (samples.length : Int) > maxSamples →
      ingestEndpoint auth maxSamples samples st = (413, 0, st)) := by
  constructor
  · rintro rfl
    rfl
  · intro hne hlen
    have hne' : samples.isEmpty = false := by
      simpa [List.isEmpty_iff] using hne
    rw [ingestEndpoint, hne']
    simp [hlen]

/-- C8 witness: an empty batch under a negative cap (so the size check
alone would 413 it) still gets 200/0, and a six-sample batch under cap 5
gets 413 with the store untouched. -/
theorem ingest_empty_then_oversize_witness :
    ingestEndpoint "dev-1" (-1) [] [] = (200, 0, []) ∧
    ingestEndpoint "dev-1" 5
      (demoBatch ++ demoBatch) [] = (413, 0, []) :=
  ⟨(ingest_empty_then_oversize "dev-1" (-1) [] []).1 rfl,
   (ingest_empty_then_oversize "dev-1" 5 (demoBatch ++ demoBatch) []).2
      (by simp [demoBatch]) (by simp [demoBatch])⟩

end IngestClaims

end SolarVps
